import Mathlib

/-
Verification of the tuition fee tracking application (src/app.py).

The application is a Streamlit script over an SQLite store with two
tables, `students` and `payments`.  We embed the store as a `State`
holding the two tables as lists in insertion (rowid) order together
with the next AUTOINCREMENT ids, and each menu branch of the script as
a pure function on `State`.  Dates that the script formats with
"%Y-%m-%d" and parses back are embedded as a `Date` record of integer
fields (the round trip through the format string is the identity on
valid dates); the `payment_date` column, which is only ever compared
as text by SQL `ORDER BY`, stays a `String`.  String ordering (pandas
`sort_values` on object columns, SQLite BINARY collation on TEXT) is
code-point/byte lexicographic; it is embedded as the computable
comparison `strLe` below.
-/

namespace Tuition

/-- Lexicographic comparison of character lists by code point.  This is
the order Python string comparison uses and, on the ASCII data this
application stores, also the SQLite BINARY collation used by
`ORDER BY` on TEXT columns. -/
def leChars : List Char → List Char → Bool
  | [], _ => true
  | _ :: _, [] => false
  | a :: as, b :: bs =>
    if a.toNat < b.toNat then true
    else if b.toNat < a.toNat then false
    else leChars as bs

/-- Lexicographic `≤` on strings by code point. -/
def strLe (a b : String) : Bool := leChars a.data b.data

/-- A calendar date, as the `year`/`month`/`day` fields of a Python
`datetime`. -/
structure Date where
  year : Int
  month : Int
  day : Int
deriving DecidableEq

/-- A row of the `students` table (app.py lines 17-24). -/
structure Student where
  student_id : Nat
  name : String
  grade : String
  monthly_fee : Int
  start_date : Date
  contact : String
deriving DecidableEq

/-- A row of the `payments` table (app.py lines 26-34). -/
structure Payment where
  payment_id : Nat
  student_id : Nat
  month : String
  amount_paid : Int
  payment_date : String
  payment_mode : String
deriving DecidableEq

/-- The store: both tables in insertion (rowid) order, plus the next
AUTOINCREMENT values for the two primary keys. -/
structure State where
  students : List Student
  payments : List Payment
  nextStudentId : Nat
  nextPaymentId : Nat
deriving DecidableEq

/-- The empty database created on first run. -/
def emptyState : State := ⟨[], [], 1, 1⟩

/-- Errors a domain operation reports to the user (via `st.warning`). -/
inductive DomErr where
  | validation
  | duplicate
deriving DecidableEq

/-- Add Student (app.py lines 57-64): insert the row when
`name and monthly_fee > 0` holds (Python truthiness: `name` non-empty
and the fee strictly positive), otherwise warn and write nothing. -/
def addStudent (st : State) (name grade : String) (monthly_fee : Int)
    (start_date : Date) (contact : String) : State × Option DomErr :=
  if name ≠ "" ∧ 0 < monthly_fee then
    ({ st with
        students := st.students ++
          [⟨st.nextStudentId, name, grade, monthly_fee, start_date, contact⟩],
        nextStudentId := st.nextStudentId + 1 }, none)
  else
    (st, some DomErr.validation)

/-- The duplicate-check query (app.py lines 87-91):
`SELECT * FROM payments WHERE student_id = ? AND month = ?`. -/
def findPayments (st : State) (sid : Nat) (month : String) : List Payment :=
  st.payments.filter fun p => p.student_id == sid && p.month == month

/-- Number of stored payments for a (student_id, month) pair. -/
def payCount (st : State) (sid : Nat) (month : String) : Nat :=
  (findPayments st sid month).length

/-- Record Payment (app.py lines 85-107): if the duplicate-check query
returns rows, warn and write nothing; otherwise insert the payment with
`payment_date` set to the current date.  No check that `sid` references
an existing student is performed (the FOREIGN KEY clause of the schema
is declared but SQLite does not enforce it without
`PRAGMA foreign_keys = ON`, which the script never issues). -/
def recordPayment (st : State) (sid : Nat) (month : String) (amount : Int)
    (mode today : String) : State × Option DomErr :=
  if (findPayments st sid month).isEmpty then
    ({ st with
        payments := st.payments ++
          [⟨st.nextPaymentId, sid, month, amount, today, mode⟩],
        nextPaymentId := st.nextPaymentId + 1 }, none)
  else
    (st, some DomErr.duplicate)

/-- Name-based row selection (app.py lines 74-76 and 165-169):
`students[students['name'] == selected_student].iloc[0]`, the first row
of the table whose `name` equals the selection. -/
def selectByName (st : State) (n : String) : Option Student :=
  st.students.find? fun s => s.name == n

/-- Record Payment as reachable from the UI: the student is resolved
from the selected name first.  The `none` branch cannot be reached by
the presentation layer (the selectbox only offers existing names). -/
def recordPaymentByName (st : State) (n month : String) (amount : Int)
    (mode today : String) : State × Option DomErr :=
  match selectByName st n with
  | some s => recordPayment st s.student_id month amount mode today
  | none => (st, some DomErr.validation)

/-- Dashboard unpaid-students computation (app.py lines 123-126):
collect the `student_id`s of payments whose `month` equals the current
period label, then keep the students whose id is not among them. -/
def computeUnpaidForPeriod (st : State) (label : String) : List Student :=
  let paid_ids := (st.payments.filter fun p => p.month == label).map
    fun p => p.student_id
  st.students.filter fun s => !(paid_ids.contains s.student_id)

/-- A row of the View Payments report:
(name, month, amount_paid, payment_mode, payment_date). -/
abbrev Row := String × String × Int × String × String

/-- The `payment_date` component of a report row. -/
def rowDate (r : Row) : String := r.2.2.2.2

/-- Row order of the View Payments report: `payment_date` descending. -/
def rowGe (a b : Row) : Prop := strLe (rowDate b) (rowDate a) = true

instance : DecidableRel rowGe :=
  fun a b => inferInstanceAs (Decidable (strLe (rowDate b) (rowDate a) = true))

/-- The join of app.py lines 141-146:
`SELECT s.name, p.month, p.amount_paid, p.payment_mode, p.payment_date
FROM payments p JOIN students s ON p.student_id = s.student_id`.
`student_id` is the primary key of `students`, so each payment matches
at most one student row. -/
def joinRows (st : State) : List Row :=
  st.payments.filterMap fun p =>
    (st.students.find? fun s => s.student_id == p.student_id).map fun s =>
      (s.name, p.month, p.amount_paid, p.payment_mode, p.payment_date)

/-- View Payments (app.py lines 141-146): the join ordered by
`payment_date` descending (`ORDER BY p.payment_date DESC`). -/
def listPayments (st : State) : List Row :=
  (joinRows st).insertionSort rowGe

/-- Sort order of the Payment Summary history (app.py line 172):
`sort_values('month')`, lexicographic string order on the free-text
month label. -/
def monthLe (a b : Payment) : Prop := strLe a.month b.month = true

instance : DecidableRel monthLe :=
  fun a b => inferInstanceAs (Decidable (strLe a.month b.month = true))

/-- A student's payment history (app.py line 172): the payments with
this `student_id`, sorted by the `month` string. -/
def studentPayments (st : State) (sid : Nat) : List Payment :=
  (st.payments.filter fun p => p.student_id == sid).insertionSort monthLe

/-- The figures computed by the Payment Summary branch (app.py lines
186-195). -/
structure Summary where
  total_paid : Int
  months_paid : Nat
  total_months : Int
  pending_months : Int
deriving DecidableEq

/-- Payment Summary for a resolved student row (app.py lines 171-201).
When the student has no payments the branch shows only the
"No payments recorded ... yet." notice and computes no figures, which
we embed as `none`.  Otherwise (lines 186-195):
`total_months = (current.year - start.year) * 12 +
(current.month - start.month + 1)` and
`pending_months = total_months - months_paid`. -/
def paymentSummaryOf (st : State) (stu : Student) (today : Date) :
    Option Summary :=
  let sp := studentPayments st stu.student_id
  if sp.isEmpty then
    none
  else
    let total_paid := (sp.map fun p => p.amount_paid).sum
    let months_paid := sp.length
    let total_months := (today.year - stu.start_date.year) * 12 +
      (today.month - stu.start_date.month + 1)
    some ⟨total_paid, months_paid, total_months, total_months - months_paid⟩

/-- The pending-month count the summary screen conveys (app.py lines
196-199): the warning shows `pending_months` when it is positive,
otherwise the "All payments are up to date!" message reports nothing
pending. -/
def displayedPending (s : Summary) : Int :=
  if 0 < s.pending_months then s.pending_months else 0

/-- Payment Summary as reachable from the UI: the student is resolved
from the selected name first (app.py lines 165-169). -/
def paymentSummaryByName (st : State) (n : String) (today : Date) :
    Option (Student × Option Summary) :=
  (selectByName st n).map fun s => (s, paymentSummaryOf st s today)

/-- A sample student row, as created by the Add Student branch from the
empty database. -/
def asha : Student := ⟨1, "Asha", "Grade 5", 1500, ⟨2025, 1, 1⟩, "9999999999"⟩

/-- A store holding one student and no payments. -/
def stAsha : State := ⟨[asha], [], 2, 1⟩

/-- A payment of Asha for "Jan 2025". -/
def pJan : Payment := ⟨1, 1, "Jan 2025", 1500, "2025-01-15", "Cash"⟩

/-- A store holding one student and her "Jan 2025" payment. -/
def stAshaJan : State := ⟨[asha], [pJan], 2, 2⟩

/-- A later payment of Asha labelled "Dec 2024", recorded after the
"Jan 2025" one. -/
def pDec : Payment := ⟨2, 1, "Dec 2024", 1500, "2025-01-20", "Cash"⟩

/-- A store where the payments table holds "Jan 2025" then "Dec 2024"
in insertion order. -/
def stAshaJanDec : State := ⟨[asha], [pJan, pDec], 2, 3⟩

/-- A payment of Asha labelled "Dec 2024", recorded in December. -/
def pDecFirst : Payment := ⟨1, 1, "Dec 2024", 1500, "2024-12-05", "Cash"⟩

/-- A payment of Asha labelled "Aug 2025", recorded after `pDecFirst`. -/
def pAug : Payment := ⟨2, 1, "Aug 2025", 1500, "2025-08-05", "Cash"⟩

/-- A store where the payments table holds "Dec 2024" then "Aug 2025"
in insertion order. -/
def stAshaDecAug : State := ⟨[asha], [pDecFirst, pAug], 2, 3⟩

/-- Two students sharing the name "Bob"; `bob1` was added first. -/
def bob1 : Student := ⟨1, "Bob", "Grade 4", 1000, ⟨2025, 1, 1⟩, "111"⟩

/-- The second student named "Bob", added later. -/
def bob2 : Student := ⟨2, "Bob", "Grade 6", 1200, ⟨2025, 2, 1⟩, "222"⟩

/-- A store holding the two students named "Bob" and no payments. -/
def stBobs : State := ⟨[bob1, bob2], [], 3, 1⟩

/-- A student whose `start_date` lies in the future. -/
def futura : Student := ⟨1, "Futura", "Grade 1", 500, ⟨2099, 1, 1⟩, ""⟩

/-- A store holding only the future-dated student. -/
def stFutura : State := ⟨[futura], [], 2, 1⟩

/-- The store with every student's `start_date` replaced by `d`; the
payments table is untouched. -/
def setAllStart (st : State) (d : Date) : State :=
  { st with students := st.students.map fun x => { x with start_date := d } }

theorem leChars_total (a : List Char) :
    ∀ b, leChars a b = true ∨ leChars b a = true := by
  induction a with
  | nil => intro b; left; rfl
  | cons x xs ih =>
    intro b
    cases b with
    | nil => right; rfl
    | cons y ys =>
      by_cases h1 : x.toNat < y.toNat
      · left; simp [leChars, h1]
      · by_cases h2 : y.toNat < x.toNat
        · right; simp [leChars, h2]
        · rcases ih ys with h | h
          · left; simp [leChars, h1, h2, h]
          · right; simp [leChars, h1, h2, h]

theorem leChars_trans (a : List Char) :
    ∀ b c, leChars a b = true → leChars b c = true → leChars a c = true := by
  induction a with
  | nil => intro b c _ _; rfl
  | cons x xs ih =>
    intro b c hab hbc
    cases b with
    | nil => simp [leChars] at hab
    | cons y ys =>
      cases c with
      | nil => simp [leChars] at hbc
      | cons z zs =>
        simp only [leChars] at hab hbc ⊢
        by_cases hxy : x.toNat < y.toNat <;> by_cases hyz : y.toNat < z.toNat <;>
          simp [hxy, hyz] at hab hbc ⊢ <;>
          first
            | exact Or.inl (by omega)
            | exact Or.inr ⟨by omega, ih ys zs hab.2 hbc.2⟩

theorem strLe_total (a b : String) : strLe a b = true ∨ strLe b a = true :=
  leChars_total a.data b.data

theorem strLe_trans (a b c : String) (hab : strLe a b = true)
    (hbc : strLe b c = true) : strLe a c = true :=
  leChars_trans a.data b.data c.data hab hbc

instance : IsTotal Row rowGe :=
  ⟨fun a b => strLe_total (rowDate b) (rowDate a)⟩

instance : IsTrans Row rowGe :=
  ⟨fun _ _ _ hab hbc => strLe_trans _ _ _ hbc hab⟩

instance : IsTotal Payment monthLe :=
  ⟨fun a b => strLe_total a.month b.month⟩

instance : IsTrans Payment monthLe :=
  ⟨fun _ _ _ hab hbc => strLe_trans _ _ _ hab hbc⟩

/-- C1: if a payment with the given (student_id, month) pair already
exists, Record Payment returns the duplicate warning and leaves the
store completely unchanged; if none exists, the first call succeeds,
the stored count for the pair becomes exactly 1, and a second call with
the same pair fails with the duplicate warning while leaving the state
of the first call unchanged. -/
theorem recordPayment_duplicate_protect (st : State) (sid : Nat) (m : String)
    (a : Int) (md d : String) :
    (findPayments st sid m ≠ [] →
      recordPayment st sid m a md d = (st, some DomErr.duplicate)) ∧
    (findPayments st sid m = [] → ∀ a' md' d',
      (recordPayment st sid m a md d).2 = none ∧
      payCount (recordPayment st sid m a md d).1 sid m = 1 ∧
      recordPayment (recordPayment st sid m a md d).1 sid m a' md' d' =
        ((recordPayment st sid m a md d).1, some DomErr.duplicate)) := by
  constructor
  · intro h
    simp [recordPayment, List.isEmpty_iff, h]
  · intro h a' md' d'
    have h1 : recordPayment st sid m a md d =
        ({ st with
            payments := st.payments ++
              [⟨st.nextPaymentId, sid, m, a, d, md⟩],
            nextPaymentId := st.nextPaymentId + 1 }, none) := by
      simp [recordPayment, List.isEmpty_iff, h]
    rw [h1]
    have h2 : findPayments
        { st with
            payments := st.payments ++
              [⟨st.nextPaymentId, sid, m, a, d, md⟩],
            nextPaymentId := st.nextPaymentId + 1 } sid m =
        [⟨st.nextPaymentId, sid, m, a, d, md⟩] := by
      unfold findPayments at h ⊢
      simp [List.filter_append, h]
    refine ⟨rfl, ?_, ?_⟩
    · simp [payCount, h2]
    · simp [recordPayment, h2]

/-- C1 witness: on the concrete one-student store, recording the
"Jan 2025" payment succeeds, leaves exactly one payment for the pair,
and recording it again fails with the duplicate warning; on the store
already holding that payment, Record Payment returns the warning and
the untouched store. -/
theorem recordPayment_duplicate_protect_witness :
    ((recordPayment stAsha 1 "Jan 2025" 1500 "Cash" "2025-01-15").2 = none ∧
      payCount (recordPayment stAsha 1 "Jan 2025" 1500 "Cash" "2025-01-15").1
        1 "Jan 2025" = 1 ∧
      recordPayment (recordPayment stAsha 1 "Jan 2025" 1500 "Cash" "2025-01-15").1
          1 "Jan 2025" 1500 "UPI" "2025-01-16" =
        ((recordPayment stAsha 1 "Jan 2025" 1500 "Cash" "2025-01-15").1,
          some DomErr.duplicate)) ∧
    recordPayment stAshaJan 1 "Jan 2025" 999 "Cash" "2025-02-01" =
      (stAshaJan, some DomErr.duplicate) :=
  ⟨(recordPayment_duplicate_protect stAsha 1 "Jan 2025" 1500 "Cash"
      "2025-01-15").2 rfl 1500 "UPI" "2025-01-16",
    (recordPayment_duplicate_protect stAshaJan 1 "Jan 2025" 999 "Cash"
      "2025-02-01").1 (by decide)⟩

/-- C2 counterexample: a non-empty name with a monthly fee of 0 is
rejected by the Add Student branch (its guard is `monthly_fee > 0`,
not `monthly_fee >= 0`): nothing is inserted and the validation
warning is shown. -/
theorem addStudent_zero_fee_rejected :
    addStudent emptyState "Asha" "Grade 5" 0 ⟨2025, 1, 1⟩ "9999999999" =
      (emptyState, some DomErr.validation) := by decide

/-- C2 (amended): Add Student inserts a new student if and only if the
name is non-empty and the monthly fee is strictly positive; otherwise
it reports a validation warning and performs no write.  A fee of 0 is
rejected. -/
theorem addStudent_spec (st : State) (n g : String) (f : Int) (d : Date)
    (c : String) :
    ((addStudent st n g f d c).2 = none ↔ n ≠ "" ∧ 0 < f) ∧
    (n ≠ "" ∧ 0 < f →
      addStudent st n g f d c =
        ({ st with
            students := st.students ++ [⟨st.nextStudentId, n, g, f, d, c⟩],
            nextStudentId := st.nextStudentId + 1 }, none)) ∧
    (¬(n ≠ "" ∧ 0 < f) →
      addStudent st n g f d c = (st, some DomErr.validation)) := by
  by_cases h : n ≠ "" ∧ 0 < f <;> simp [addStudent, h]

/-- C2 witness: a valid row is inserted with the next id, while a fee
of 0 leaves the empty store unchanged with a validation warning. -/
theorem addStudent_spec_witness :
    addStudent emptyState "Asha" "Grade 5" 1500 ⟨2025, 1, 1⟩ "9999999999" =
      ({ emptyState with students := [asha], nextStudentId := 2 }, none) ∧
    addStudent emptyState "Bo" "Grade 2" 0 ⟨2025, 1, 1⟩ "" =
      (emptyState, some DomErr.validation) := by
  constructor
  · have h := (addStudent_spec emptyState "Asha" "Grade 5" 1500 ⟨2025, 1, 1⟩
      "9999999999").2.1 ⟨by decide, by decide⟩
    rw [h]
    rfl
  · exact (addStudent_spec emptyState "Bo" "Grade 2" 0 ⟨2025, 1, 1⟩ "").2.2
      (by decide)

/-- C5 counterexample: for a student with zero payments the Payment
Summary branch takes the `else` branch at app.py line 200 and shows
only the "No payments recorded ... yet." notice; no months-paid or
pending-month figure is computed (embedded as `none`), contrary to the
claim that the full elapsed-month count is reported as pending. -/
theorem paymentSummary_empty_notice_only :
    paymentSummaryOf stAsha asha ⟨2025, 4, 15⟩ = none := by decide

/-- C5 (amended): for every student with zero stored payments, the
Payment Summary branch produces no summary figures at all — only the
"no payments yet" notice (`none` in the embedding). -/
theorem paymentSummary_empty (st : State) (stu : Student) (today : Date)
    (h : st.payments.filter (fun p => p.student_id == stu.student_id) = []) :
    paymentSummaryOf st stu today = none := by
  simp [paymentSummaryOf, studentPayments, h]

/-- C5 witness: the amended statement evaluated on the concrete
one-student store with an empty payments table. -/
theorem paymentSummary_empty_witness :
    paymentSummaryOf stAsha asha ⟨2025, 6, 1⟩ = none :=
  paymentSummary_empty stAsha asha ⟨2025, 6, 1⟩ rfl

/-- C6: the Record Payment insert performs no referential check: on a
store whose students table is empty, recording a payment for
student_id 7 succeeds and stores a payment row referencing the
nonexistent student (the schema's FOREIGN KEY clause is not enforced
because the script never issues `PRAGMA foreign_keys = ON`), instead
of failing with a referential error as the claim requires. -/
theorem recordPayment_no_referential_check :
    emptyState.students = [] ∧
    recordPayment emptyState 7 "Jan 2025" 500 "Cash" "2025-01-10" =
      (⟨[], [⟨1, 7, "Jan 2025", 500, "2025-01-10", "Cash"⟩], 1, 2⟩, none) :=
  ⟨rfl, by decide⟩

/-- C3: for a student with at least one payment, the Payment Summary
branch produces figures with `total_months` computed exactly as
`(current_year - start_year) * 12 + (current_month - start_month) + 1`,
`months_paid` the count of that student's stored payments, and the
pending-month count conveyed to the user equal to
`max 0 (total_months - months_paid)` (the warning shows the difference
when positive, the success message conveys nothing pending). -/
theorem paymentSummary_pending_spec (st : State) (stu : Student) (today : Date)
    (h : studentPayments st stu.student_id ≠ []) :
    ∃ s : Summary, paymentSummaryOf st stu today = some s ∧
      s.total_months = (today.year - stu.start_date.year) * 12 +
        (today.month - stu.start_date.month) + 1 ∧
      s.months_paid =
        (st.payments.filter fun p => p.student_id == stu.student_id).length ∧
      displayedPending s = max 0 (s.total_months - (s.months_paid : Int)) := by
  have hne : (studentPayments st stu.student_id).isEmpty = false := by
    simpa [List.isEmpty_iff] using h
  simp only [paymentSummaryOf, hne, Bool.false_eq_true, if_false]
  refine ⟨_, rfl, ?_, ?_, ?_⟩
  · dsimp only
    ring
  · exact (List.perm_insertionSort monthLe _).length_eq
  · dsimp only [displayedPending]
    split <;> omega

/-- C3 witness: the summary for the one-student store with a single
"Jan 2025" payment, evaluated on 2025-04-15 (months_paid = 1,
total_months = 4, pending = 3). -/
theorem paymentSummary_pending_spec_witness :
    ∃ s : Summary, paymentSummaryOf stAshaJan asha ⟨2025, 4, 15⟩ = some s ∧
      s.total_months = ((2025 : Int) - 2025) * 12 + ((4 : Int) - 1) + 1 ∧
      s.months_paid =
        (stAshaJan.payments.filter fun p => p.student_id == asha.student_id).length ∧
      displayedPending s = max 0 (s.total_months - (s.months_paid : Int)) :=
  paymentSummary_pending_spec stAshaJan asha ⟨2025, 4, 15⟩ (by decide)

/-- A student is listed by the Dashboard's unpaid computation exactly
when it is in the students table and no stored payment carries both the
queried month label and the student's id.  Shared characterisation used
by the claims about the Dashboard branch. -/
theorem mem_computeUnpaid_iff (st : State) (label : String) (s : Student) :
    s ∈ computeUnpaidForPeriod st label ↔
      s ∈ st.students ∧
        ∀ p ∈ st.payments, p.month = label → p.student_id ≠ s.student_id := by
  simp [computeUnpaidForPeriod, List.mem_filter, List.elem_iff]

/-- C4: the Dashboard's unpaid computation returns exactly the
students with no payment whose month equals the queried period label,
and successfully recording a matching payment for a student removes
that student from the result of the next call. -/
theorem computeUnpaid_spec (st : State) (label : String) (s : Student) :
    (s ∈ computeUnpaidForPeriod st label ↔
      s ∈ st.students ∧
        ∀ p ∈ st.payments, p.month = label → p.student_id ≠ s.student_id) ∧
    (∀ a md d st', recordPayment st s.student_id label a md d = (st', none) →
      s ∉ computeUnpaidForPeriod st' label) := by
  refine ⟨mem_computeUnpaid_iff st label s, ?_⟩
  intro a md d st' h
  rw [recordPayment] at h
  by_cases he : (findPayments st s.student_id label).isEmpty
  · rw [if_pos he] at h
    have hst : st' =
        { st with
            payments := st.payments ++
              [⟨st.nextPaymentId, s.student_id, label, a, d, md⟩],
            nextPaymentId := st.nextPaymentId + 1 } :=
      ((Prod.ext_iff.mp h).1).symm
    subst hst
    intro hmem
    rw [mem_computeUnpaid_iff] at hmem
    exact hmem.2 ⟨st.nextPaymentId, s.student_id, label, a, d, md⟩
      (by simp) rfl rfl
  · rw [if_neg he] at h
    exact absurd (Prod.ext_iff.mp h).2 (by simp)

/-- C4 witness: on the one-student store, Asha is unpaid for
"Jan 2025"; after her "Jan 2025" payment is recorded she is no longer
in the unpaid list. -/
theorem computeUnpaid_spec_witness :
    asha ∈ computeUnpaidForPeriod stAsha "Jan 2025" ∧
    asha ∉ computeUnpaidForPeriod
      (recordPayment stAsha 1 "Jan 2025" 1500 "Cash" "2025-01-15").1
      "Jan 2025" :=
  ⟨(computeUnpaid_spec stAsha "Jan 2025" asha).1.mpr ⟨by decide, by decide⟩,
    (computeUnpaid_spec stAsha "Jan 2025" asha).2 1500 "Cash" "2025-01-15"
      (recordPayment stAsha 1 "Jan 2025" 1500 "Cash" "2025-01-15").1 rfl⟩

/-- C7: the View Payments report is a permutation of the
payments-with-students join (each payment paired with its student as a
(name, month, amount_paid, payment_mode, payment_date) tuple) and is
sorted by `payment_date` descending. -/
theorem listPayments_spec (st : State) :
    (listPayments st).Perm (joinRows st) ∧
      List.Sorted rowGe (listPayments st) :=
  ⟨List.perm_insertionSort rowGe (joinRows st),
    List.sorted_insertionSort rowGe (joinRows st)⟩

/-- C8 counterexample: the claim's example is backwards.  With payments
labelled "Jan 2025" (inserted first) and "Dec 2024", the history lists
"Dec 2024" BEFORE "Jan 2025": lexically 'D' < 'J', so "Dec 2024" does
not sort after "Jan 2025". -/
theorem monthSort_dec_before_jan :
    (studentPayments stAshaJanDec 1).map (fun p => p.month) =
      ["Dec 2024", "Jan 2025"] := by decide

/-- C8 (amended): the payment history is the student's payments sorted
by lexical string comparison of the free-text month label, not calendar
order; the lexical order happens to agree with calendar order on
"Dec 2024" vs "Jan 2025", but misorders e.g. "Aug 2025" before
"Dec 2024" although August 2025 is the chronologically later period. -/
theorem paymentHistory_lexical (st : State) (sid : Nat) :
    List.Sorted monthLe (studentPayments st sid) ∧
    (studentPayments st sid).Perm
      (st.payments.filter fun p => p.student_id == sid) ∧
    (studentPayments stAshaDecAug 1).map (fun p => p.month) =
      ["Aug 2025", "Dec 2024"] :=
  ⟨List.sorted_insertionSort monthLe _, List.perm_insertionSort monthLe _,
    by decide⟩

/-- On a students table whose ids increase in insertion order (the
invariant AUTOINCREMENT maintains), the first row with a given name has
the smallest id among all rows with that name. -/
theorem find?_name_min (n : String) :
    ∀ l : List Student,
      l.Pairwise (fun a b => a.student_id < b.student_id) →
      ∀ s, l.find? (fun x => x.name == n) = some s →
      ∀ s' ∈ l, s'.name = n → s.student_id ≤ s'.student_id := by
  intro l
  induction l with
  | nil =>
    intro _ s h
    simp at h
  | cons x xs ih =>
    intro hp s hf s' hmem hname
    rw [List.pairwise_cons] at hp
    by_cases hx : x.name == n
    · obtain rfl : x = s := by
        simpa [List.find?, hx] using hf
      rcases List.mem_cons.mp hmem with rfl | hmem'
      · exact le_refl _
      · exact le_of_lt (hp.1 s' hmem')
    · have hx' : (x.name == n) = false := Bool.eq_false_iff.mpr hx
      rw [show (x :: xs).find? (fun y => y.name == n) =
        xs.find? (fun y => y.name == n) by simp [List.find?, hx']] at hf
      rcases List.mem_cons.mp hmem with rfl | hmem'
      · exact absurd (by simp [hname]) hx
      · exact ih hp.2 s hf s' hmem' hname

/-- C9: both the Record Payment and the Payment Summary branches
resolve the selected name to the first matching row of the students
table; on a store whose ids increase in insertion order, that row has
the smallest student_id among all students with that name, so both
operations always act on the earliest-added student with the selected
name. -/
theorem nameSelection_first_min_id (st : State) (n : String) (s : Student)
    (today : Date)
    (hwf : st.students.Pairwise fun a b => a.student_id < b.student_id)
    (h : selectByName st n = some s) :
    s.name = n ∧
    (∀ s' ∈ st.students, s'.name = n → s.student_id ≤ s'.student_id) ∧
    (∀ m a md d, recordPaymentByName st n m a md d =
      recordPayment st s.student_id m a md d) ∧
    paymentSummaryByName st n today = some (s, paymentSummaryOf st s today) := by
  have h' : st.students.find? (fun x => x.name == n) = some s := h
  refine ⟨?_, ?_, ?_, ?_⟩
  · simpa using List.find?_some h'
  · exact find?_name_min n st.students hwf s h'
  · intro m a md d
    simp [recordPaymentByName, h]
  · simp [paymentSummaryByName, h]

/-- C9 witness: with two students both named "Bob", the selection
resolves to the first-added one (id 1 ≤ id 2), and both Record Payment
and Payment Summary act on that row. -/
theorem nameSelection_first_min_id_witness :
    bob1.name = "Bob" ∧ bob1.student_id ≤ bob2.student_id ∧
    recordPaymentByName stBobs "Bob" "Jan 2025" 1000 "Cash" "2025-01-10" =
      recordPayment stBobs bob1.student_id "Jan 2025" 1000 "Cash" "2025-01-10" ∧
    paymentSummaryByName stBobs "Bob" ⟨2025, 3, 1⟩ =
      some (bob1, paymentSummaryOf stBobs bob1 ⟨2025, 3, 1⟩) := by
  obtain ⟨h1, h2, h3, h4⟩ := nameSelection_first_min_id stBobs "Bob" bob1
    ⟨2025, 3, 1⟩ (by decide) (by decide)
  exact ⟨h1, h2 bob2 (by decide) rfl, h3 "Jan 2025" 1000 "Cash" "2025-01-10", h4⟩

/-- C10: the Dashboard's unpaid computation never consults
`start_date`: any student of the table with no payment carrying the
queried label and the student's id is listed (no matter how its
`start_date` relates to the current date), and replacing every
student's `start_date` changes the result only by that same
replacement. -/
theorem computeUnpaid_ignores_start_date (st : State) (label : String)
    (s : Student) :
    (s ∈ st.students →
      (∀ p ∈ st.payments, p.month = label → p.student_id ≠ s.student_id) →
      s ∈ computeUnpaidForPeriod st label) ∧
    (∀ d : Date, computeUnpaidForPeriod (setAllStart st d) label =
      (computeUnpaidForPeriod st label).map fun x => { x with start_date := d }) := by
  constructor
  · intro hmem hnp
    exact (mem_computeUnpaid_iff st label s).mpr ⟨hmem, hnp⟩
  · intro d
    simp only [computeUnpaidForPeriod, setAllStart, List.filter_map]
    rfl

/-- C10 witness: a student whose `start_date` is 2099-01-01 (after any
current date of interest) still appears in the unpaid list for
"Jan 2025". -/
theorem computeUnpaid_ignores_start_date_witness :
    futura ∈ computeUnpaidForPeriod stFutura "Jan 2025" :=
  (computeUnpaid_ignores_start_date stFutura "Jan 2025" futura).1
    (by decide) (by decide)

end Tuition
